import Mathlib

/-!
Verification of the flagger metrics provider package (Datadog, CloudWatch and
the provider factory) against its specification.

The Go source is shallowly embedded:

* `map[string][]byte` credentials become `String → Option String`;
* `float64` metric values become `ℚ` (all concrete values appearing in the
  spec are exactly representable);
* calls into external libraries (`encoding/json`, the AWS SDK session and
  `GetMetricData`, `time.ParseDuration`, the HTTP client) are supplied as
  oracle arguments: the embedding models the package's own control flow on
  every possible outcome of those calls;
* a Go function returning `(T, error)` becomes `Option T × Option String`
  (both components can be non-nil, as the CloudWatch constructor shows);
* a Go slice access that can be out of range becomes an explicit
  `GoOutcome.panics` result, mirroring the run-time panic.
-/

/-- Go constant `datadogDefaultHost` from datadog.go. -/
def datadogDefaultHost : String := "https://api.datadoghq.com"

/-- Go constant `datadogMetricsQueryPath` from datadog.go. -/
def datadogMetricsQueryPath : String := "/api/v1/query"

/-- Go constant `datadogAPIKeyValidationPath` from datadog.go. -/
def datadogAPIKeyValidationPath : String := "/api/v1/validate"

/-- Go constant `datadogAPIKeySecretKey` from datadog.go. -/
def datadogAPIKeySecretKey : String := "datadog_api_key"

/-- Go constant `datadogApplicationKeySecretKey` from datadog.go. -/
def datadogApplicationKeySecretKey : String := "datadog_application_key"

/-- Go constant `datadogFromDeltaMultiplierOnMetricInterval = 10`. -/
def datadogFromDeltaMultiplierOnMetricInterval : Int := 10

/-- Error text prefix of the non-200 branch of `datadogProvider.RunQuery`. -/
def errorResponseLead : String := "error response: "

/-- Error text prefix of the unmarshal-failure branch of
`datadogProvider.RunQuery`. -/
def errorUnmarshalingLead : String := "error unmarshaling result: "

/-- The separator `, ` used in the unmarshal-failure error text. -/
def commaSpace : String := ", "

/-- A single-quote character (U+0027) as a string, used by the
unmarshal-failure error text to quote the response body. -/
def singleQuoteStr : String := String.singleton (Char.ofNat 39)

/-- Error text prefix of the empty-series branches of
`datadogProvider.RunQuery` and `cloudWatchProvider.RunQuery`. -/
def noValuesFoundLead : String := "no values found in response: "

/-- The Go runtime panic message for indexing a slice at `-1`. -/
def panicIndexNeg1 : String := "runtime error: index out of range [-1]"

/-- The Go runtime panic message for indexing a slice at `1`. -/
def panicIndex1 : String := "runtime error: index out of range [1]"

/-- One entry of `datadogResponse.Series`: a `pointlist` of points, each point a
list of `float64` coordinates (modelled as `ℚ`). -/
structure DatadogSeriesEntry where
  pointlist : List (List ℚ)
deriving DecidableEq

/-- The decoded shape of a Datadog query response (`datadogResponse` in
datadog.go). -/
structure DatadogResponse where
  series : List DatadogSeriesEntry
deriving DecidableEq

/-- Outcome of a Go function returning `(float64, error)`, with run-time panics
made explicit: `value v` is `(v, nil)`, `errMsg m` is `(0, errors.New(m))`, and
`panics m` marks an out-of-range slice access that aborts the goroutine. -/
inductive GoOutcome where
  | value (v : ℚ)
  | errMsg (msg : String)
  | panics (msg : String)
deriving DecidableEq

/-- Embedding of `datadogProvider.RunQuery` (datadog.go) from the point where
the HTTP response has been read: `statusCode` and `body` are the response, and
`unmarshal` is the outcome of `json.Unmarshal(body, &res)` (an external stdlib
call, supplied as an oracle: `Except.ok` with the decoded value, or
`Except.error` with the unmarshal error text).  The Go source indexes
`s.Pointlist[len(s.Pointlist)-1]` without checking that the pointlist is
non-empty, and reads `vs[1]` guarded only by `len(vs) < 1`; both out-of-range
accesses are modelled as `GoOutcome.panics`. -/
def datadogRunQuery (statusCode : Nat) (body : String)
    (unmarshal : Except String DatadogResponse) : GoOutcome :=
  if statusCode ≠ 200 then
    GoOutcome.errMsg (errorResponseLead ++ body)
  else
    match unmarshal with
    | Except.error e =>
        GoOutcome.errMsg (errorUnmarshalingLead ++ e ++ commaSpace ++
          singleQuoteStr ++ body ++ singleQuoteStr)
    | Except.ok res =>
        match res.series.head? with
        | none => GoOutcome.errMsg (noValuesFoundLead ++ body)
        | some s =>
            match s.pointlist.getLast? with
            | none => GoOutcome.panics panicIndexNeg1
            | some vs =>
                if vs.length < 1 then
                  GoOutcome.errMsg (noValuesFoundLead ++ body)
                else
                  match vs.get? 1 with
                  | none => GoOutcome.panics panicIndex1
                  | some v => GoOutcome.value v

/-- Response body whose first series has a single one-element point. -/
def datadogBodySinglePoint : String := "\x7b\"series\":[\x7b\"pointlist\":[[1000]]\x7d]\x7d"

/-- The value `json.Unmarshal` produces for `datadogBodySinglePoint`. -/
def datadogDecodedSinglePoint : DatadogResponse := ⟨[⟨[[1000]]⟩]⟩

/-- Response body whose first series has an empty pointlist. -/
def datadogBodyEmptyPointlist : String := "\x7b\"series\":[\x7b\"pointlist\":[]\x7d]\x7d"

/-- The value `json.Unmarshal` produces for `datadogBodyEmptyPointlist`. -/
def datadogDecodedEmptyPointlist : DatadogResponse := ⟨[⟨[]⟩]⟩

/-- C1: the claim says a 200 response never panics and that an empty pointlist
or a one-element last point yields a returned error; the code instead panics on
both: with `body = {"series":[{"pointlist":[[1000]]}]}` the guard `len(vs) < 1`
passes and `vs[1]` is out of range, and with an empty pointlist
`s.Pointlist[len(s.Pointlist)-1]` indexes at `-1`. -/
theorem datadog_runquery_panics_on_200_response :
    datadogRunQuery 200 datadogBodySinglePoint (Except.ok datadogDecodedSinglePoint)
      = GoOutcome.panics panicIndex1 ∧
    datadogRunQuery 200 datadogBodyEmptyPointlist (Except.ok datadogDecodedEmptyPointlist)
      = GoOutcome.panics panicIndexNeg1 :=
  ⟨rfl, rfl⟩

/-- Response body of claim C3. -/
def datadogBodyTwoPoints : String :=
  "\x7b\"series\":[\x7b\"pointlist\":[[1000,1.0],[2000,42.5]]\x7d]\x7d"

/-- The value `json.Unmarshal` produces for `datadogBodyTwoPoints`. -/
def datadogDecodedTwoPoints : DatadogResponse := ⟨[⟨[[1000, 1], [2000, 42.5]]⟩]⟩

/-- Error text of `newDatadogProvider` when the api key is absent. -/
def errMissingAPIKey : String := "datadog credentials does not contain datadog_api_key"

/-- Error text of `newDatadogProvider` when the application key is absent. -/
def errMissingApplicationKey : String :=
  "datadog credentials does not contain datadog_application_key"

/-- Error text prefix of `newDatadogProvider` when the metric interval does not
parse as a duration. -/
def errorParsingIntervalLead : String := "error parsing metric interval: "

/-- Fuel-driven `⌊log₂ n⌋` (0 for `n < 2`), written structurally so that it
reduces inside the kernel. -/
def log2Aux : Nat → Nat → Nat
  | 0, _ => 0
  | fuel + 1, n => if n < 2 then 0 else log2Aux fuel (n / 2) + 1

/-- `⌊log₂ n⌋` for `n ≥ 1`; the fuel 200 covers every number below `2^199`,
far beyond anything the embedding produces. -/
def natLog2 (n : Nat) : Nat := log2Aux 200 n

/-- A dyadic rational `num / 2^den2`.  Every `float64` value is of this form,
so the embedding carries Go floats exactly, with no rounding of its own. -/
structure Dyadic where
  num : Int
  den2 : Nat
deriving DecidableEq

/-- Round the rational `a / b` (with `b > 0`) to the nearest IEEE-754 binary64
value, ties to even — the rounding Go applies to every arithmetic result and
conversion.  The significand is the nearest-even integer `m ∈ [2^52, 2^53]` to
`(a/b)·2^(52-e)` where `2^e ≤ |a/b| < 2^(e+1)`.  Subnormal and overflow
handling is omitted: every value reachable in this package (zero, or magnitude
between `2^-30` and `2^37`, since `|ns| < 2^63`) lies well inside the normal
range. -/
def roundFloat64 (a : Int) (b : Nat) : Dyadic :=
  if a = 0 then ⟨0, 0⟩
  else
    let na := a.natAbs
    let e0 : Int := (natLog2 na : Int) - (natLog2 b : Int)
    let e : Int :=
      if 0 ≤ e0 then (if b * 2 ^ e0.toNat ≤ na then e0 else e0 - 1)
      else (if b ≤ na * 2 ^ (-e0).toNat then e0 else e0 - 1)
    let shift : Int := 52 - e
    let A : Nat := if 0 ≤ shift then na * 2 ^ shift.toNat else na
    let B : Nat := if 0 ≤ shift then b else b * 2 ^ (-shift).toNat
    let q := A / B
    let r := A % B
    let m : Nat :=
      if 2 * r < B then q
      else if B < 2 * r then q + 1
      else if q % 2 = 0 then q else q + 1
    let signed : Nat → Int := fun v => if a < 0 then -(v : Int) else (v : Int)
    if 0 ≤ shift then ⟨signed m, shift.toNat⟩
    else ⟨signed (m * 2 ^ (-shift).toNat), 0⟩

/-- Go's `float64(n)` conversion of an integer (correctly rounded). -/
def float64OfInt (n : Int) : Dyadic := roundFloat64 n 1

/-- Go's `float64` addition: the exact sum of the two dyadic operands,
correctly rounded. -/
def floatAdd (x y : Dyadic) : Dyadic :=
  let k := max x.den2 y.den2
  roundFloat64 (x.num * 2 ^ (k - x.den2) + y.num * 2 ^ (k - y.den2)) (2 ^ k)

/-- Go's `float64` multiplication by an integer constant (such as the literal
`10`, itself exactly representable): the exact product, correctly rounded. -/
def floatScaleInt (c : Int) (x : Dyadic) : Dyadic :=
  roundFloat64 (c * x.num) (2 ^ x.den2)

/-- Go's `time.Duration.Seconds()` for a duration of `ns` nanoseconds:
`sec := d / 1e9; nsec := d % 1e9; return float64(sec) + float64(nsec)/1e9`.
Go's `int64` division and remainder truncate toward zero (`Int.tdiv`/
`Int.tmod`); `float64(nsec)` is exact since `|nsec| < 2^30`, so the division
by `1e9` is the correctly rounded rational `nsec / 10^9`. -/
def goDurationSeconds (ns : Int) : Dyadic :=
  floatAdd (float64OfInt (Int.tdiv ns 1000000000))
    (roundFloat64 (Int.tmod ns 1000000000) 1000000000)

/-- `dd.fromDelta = int64(datadogFromDeltaMultiplierOnMetricInterval * md.Seconds())`
for a parsed metric interval of `ns` nanoseconds, with the `float64` product
`10 * md.Seconds()` evaluated bit-faithfully (each operation correctly rounded
to binary64) and the `int64` conversion truncating toward zero. -/
def datadogFromDelta (ns : Int) : Int :=
  let p := floatScaleInt datadogFromDeltaMultiplierOnMetricInterval (goDurationSeconds ns)
  Int.tdiv p.num ((2 ^ p.den2 : Nat) : Int)

/-- The `datadogProvider` struct from datadog.go (the `timeout` field is the
constant `5 * time.Second`, in nanoseconds). -/
structure DatadogProviderModel where
  metricsQueryEndpoint : String
  apiKeyValidationEndpoint : String
  timeoutNs : Int
  apiKey : String
  applicationKey : String
  fromDelta : Int
deriving DecidableEq

/-- Embedding of `newDatadogProvider` (datadog.go).  `parsedInterval` is the
outcome of the external call `time.ParseDuration(metricInterval)`, as a signed
count of nanoseconds on success; `credentials` is the credentials map.  The Go
function returns `(*datadogProvider, error)`; the model returns both
components. -/
def newDatadogProvider (parsedInterval : Except String Int)
    (providerAddress : String) (credentials : String → Option String) :
    Option DatadogProviderModel × Option String :=
  let address := if providerAddress = "" then datadogDefaultHost else providerAddress
  match credentials datadogAPIKeySecretKey with
  | none => (none, some errMissingAPIKey)
  | some apiKey =>
      match credentials datadogApplicationKeySecretKey with
      | none => (none, some errMissingApplicationKey)
      | some applicationKey =>
          match parsedInterval with
          | Except.error e => (none, some (errorParsingIntervalLead ++ e))
          | Except.ok ns =>
              (some { metricsQueryEndpoint := address ++ datadogMetricsQueryPath
                      apiKeyValidationEndpoint := address ++ datadogAPIKeyValidationPath
                      timeoutNs := 5000000000
                      apiKey := apiKey
                      applicationKey := applicationKey
                      fromDelta := datadogFromDelta ns }, none)

/-- C3: on a 200 response with body
`{"series":[{"pointlist":[[1000,1.0],[2000,42.5]]}]}`, `RunQuery` returns the
`value` of the last point of the first series, `42.5`, with no error. -/
theorem datadog_runquery_last_point_of_first_series :
    datadogRunQuery 200 datadogBodyTwoPoints (Except.ok datadogDecodedTwoPoints)
      = GoOutcome.value 42.5 :=
  rfl

/-- Sample api key bytes used by concrete witnesses. -/
def sampleAPIKeyValue : String := "api-key-bytes"

/-- Sample application key bytes used by concrete witnesses. -/
def sampleApplicationKeyValue : String := "app-key-bytes"

/-- A credentials map holding both Datadog keys. -/
def credsBothKeys : String → Option String := fun k =>
  if k = datadogAPIKeySecretKey then some sampleAPIKeyValue
  else if k = datadogApplicationKeySecretKey then some sampleApplicationKeyValue
  else none

/-- The empty credentials map. -/
def credsEmpty : String → Option String := fun _ => none

/-- A credentials map holding only the api key. -/
def credsAPIKeyOnly : String → Option String := fun k =>
  if k = datadogAPIKeySecretKey then some sampleAPIKeyValue else none

/-- C7: with both credential keys present and a parseable interval, Datadog
construction succeeds; with `datadog_api_key` absent it fails with the error
naming `datadog_api_key`; with `datadog_api_key` present and
`datadog_application_key` absent it fails with the error naming
`datadog_application_key`. -/
theorem newDatadogProvider_credential_checks (parsed : Except String Int) (ns : Int)
    (addr : String) (credentials : String → Option String) :
    (credentials datadogAPIKeySecretKey = none →
      newDatadogProvider parsed addr credentials = (none, some errMissingAPIKey)) ∧
    (∀ k, credentials datadogAPIKeySecretKey = some k →
      credentials datadogApplicationKeySecretKey = none →
      newDatadogProvider parsed addr credentials = (none, some errMissingApplicationKey)) ∧
    (∀ k a, credentials datadogAPIKeySecretKey = some k →
      credentials datadogApplicationKeySecretKey = some a →
      parsed = Except.ok ns →
      ∃ d, newDatadogProvider parsed addr credentials = (some d, none)) := by
  refine ⟨fun h => ?_, fun k hk hn => ?_, fun k a hk ha hp => ?_⟩
  · simp [newDatadogProvider, h]
  · simp [newDatadogProvider, hk, hn]
  · subst hp
    simp only [newDatadogProvider, hk, ha]
    exact ⟨_, rfl⟩

/-- Witness for `newDatadogProvider_credential_checks` at concrete credential
maps and the interval outcome of `time.ParseDuration("1m")`. -/
theorem newDatadogProvider_credential_checks_witness :
    newDatadogProvider (Except.ok 60000000000) datadogDefaultHost credsEmpty
      = (none, some errMissingAPIKey) ∧
    newDatadogProvider (Except.ok 60000000000) datadogDefaultHost credsAPIKeyOnly
      = (none, some errMissingApplicationKey) ∧
    ∃ d, newDatadogProvider (Except.ok 60000000000) datadogDefaultHost credsBothKeys
      = (some d, none) :=
  ⟨(newDatadogProvider_credential_checks (Except.ok 60000000000) 60000000000
      datadogDefaultHost credsEmpty).1 rfl,
   (newDatadogProvider_credential_checks (Except.ok 60000000000) 60000000000
      datadogDefaultHost credsAPIKeyOnly).2.1 sampleAPIKeyValue rfl rfl,
   (newDatadogProvider_credential_checks (Except.ok 60000000000) 60000000000
      datadogDefaultHost credsBothKeys).2.2 sampleAPIKeyValue sampleApplicationKeyValue
      rfl rfl rfl⟩

/-- C6 counterexample: `"150ms"` parses to `150000000` ns; ten times its length
in seconds is `3/2`, but the stored `fromDelta` is the `int64` truncation `1`,
so `fromDelta` is not exactly ten times the duration's length in seconds. -/
theorem datadog_fromDelta_not_exact_on_150ms :
    (newDatadogProvider (Except.ok 150000000) datadogDefaultHost credsBothKeys).1.map
        DatadogProviderModel.fromDelta = some 1 ∧
    ((1 : ℤ) : ℚ) ≠ (datadogFromDeltaMultiplierOnMetricInterval : ℚ) *
      ((150000000 : ℚ) / 1000000000) := by
  constructor
  · decide
  · rw [datadogFromDeltaMultiplierOnMetricInterval]
    norm_num

/-- C6 (amended): with both credential keys present, an interval that fails
duration parsing makes Datadog construction fail with an error mentioning the
parse error; a parseable interval of `ns` nanoseconds stores `fromDelta` equal
to the `int64` truncation of the `float64`-evaluated product
`10 * md.Seconds()` (`datadogFromDelta`, which models every binary64
rounding), which is not in general exactly ten times the duration's length in
seconds: a 150ms interval stores `1` (exact product `3/2`); at
`99999999999999999` ns the `float64` roundings store `1000000000`, one above
the floor `999999999` of the exact product; a 1m interval stores exactly
`600`. -/
theorem newDatadogProvider_fromDelta_truncates (addr : String)
    (credentials : String → Option String) (k a : String)
    (hk : credentials datadogAPIKeySecretKey = some k)
    (ha : credentials datadogApplicationKeySecretKey = some a) :
    (∀ e, newDatadogProvider (Except.error e) addr credentials
        = (none, some (errorParsingIntervalLead ++ e))) ∧
    (∀ ns d, newDatadogProvider (Except.ok ns) addr credentials = (some d, none) →
      d.fromDelta = datadogFromDelta ns) ∧
    (datadogFromDelta 150000000 = 1 ∧
     datadogFromDelta 99999999999999999 = 1000000000 ∧
     datadogFromDelta 60000000000 = 600) := by
  refine ⟨fun e => ?_, fun ns d hres => ?_, by decide, by decide, by decide⟩
  · simp [newDatadogProvider, hk, ha]
  · simp only [newDatadogProvider, hk, ha] at hres
    have h1 := congrArg Prod.fst hres
    have h2 := Option.some.inj h1
    rw [← h2]

/-- The parse-error text `time.ParseDuration` returns for the string `abc`. -/
def sampleParseError : String := "time: invalid duration \"abc\""

/-- The provider value construction yields for a 150ms interval. -/
def ddProvider150ms : DatadogProviderModel :=
  { metricsQueryEndpoint := datadogDefaultHost ++ datadogMetricsQueryPath
    apiKeyValidationEndpoint := datadogDefaultHost ++ datadogAPIKeyValidationPath
    timeoutNs := 5000000000
    apiKey := sampleAPIKeyValue
    applicationKey := sampleApplicationKeyValue
    fromDelta := 1 }

/-- Witness for `newDatadogProvider_fromDelta_truncates` at the credentials map
`credsBothKeys`, an unparseable interval and a 150ms interval. -/
theorem newDatadogProvider_fromDelta_truncates_witness :
    newDatadogProvider (Except.error sampleParseError) datadogDefaultHost credsBothKeys
      = (none, some (errorParsingIntervalLead ++ sampleParseError)) ∧
    ddProvider150ms.fromDelta = datadogFromDelta 150000000 ∧
    datadogFromDelta 99999999999999999 = 1000000000 := by
  obtain ⟨h1, h2, h3⟩ := newDatadogProvider_fromDelta_truncates datadogDefaultHost
    credsBothKeys sampleAPIKeyValue sampleApplicationKeyValue rfl rfl
  exact ⟨h1 sampleParseError, h2 150000000 ddProvider150ms (by decide), h3.2.1⟩

/-- Go constant `cloudWatchMaxRetries = 3` from cloudwatch.go. -/
def cloudWatchMaxRetries : Nat := 3

/-- Go `strings.TrimLeft`: removes the maximal leading run of characters drawn
from `cutset` — `cutset` is a set of characters, not a literal prefix. -/
def goTrimLeft (s cutset : String) : String :=
  ⟨s.toList.dropWhile (fun c => c ∈ cutset.toList)⟩

/-- Go `strings.TrimRight`: removes the maximal trailing run of characters
drawn from `cutset` — `cutset` is a set of characters, not a literal suffix. -/
def goTrimRight (s cutset : String) : String :=
  ⟨(s.toList.reverse.dropWhile (fun c => c ∈ cutset.toList)).reverse⟩

/-- The first cutset used by `newCloudWatchProvider`. -/
def monitoringDotCutset : String := "monitoring."

/-- The second cutset used by `newCloudWatchProvider`. -/
def amazonawsDotComCutset : String := ".amazonaws.com"

/-- The region derivation in `newCloudWatchProvider` (cloudwatch.go):
`strings.TrimRight(strings.TrimLeft(address, "monitoring."), ".amazonaws.com")`. -/
def cloudWatchRegion (address : String) : String :=
  goTrimRight (goTrimLeft address monitoringDotCutset) amazonawsDotComCutset

/-- The `aws.Config` built by `newCloudWatchProvider`: region, max retries and
endpoint. -/
structure AWSConfig where
  region : String
  maxRetries : Nat
  endpoint : String
deriving DecidableEq

/-- The `cloudWatchProvider` struct: its `client` field is
`cloudwatch.New(sess)` for the session built from the config; the model records
the config the client was built from. -/
structure CloudWatchProviderModel where
  clientConfig : AWSConfig
deriving DecidableEq

/-- Embedding of `newCloudWatchProvider` (cloudwatch.go).  `sessionErr` gives,
for each config, the error outcome of the external call `session.NewSession`
(`none` on success).  The Go function ends with
`return &cloudWatchProvider{client: cloudwatch.New(sess)}, err`,
so the provider value is returned even when `err` is non-nil. -/
def newCloudWatchProvider (sessionErr : AWSConfig → Option String)
    (address : String) : Option CloudWatchProviderModel × Option String :=
  let region := cloudWatchRegion address
  let cfg : AWSConfig :=
    { region := region, maxRetries := cloudWatchMaxRetries, endpoint := address }
  (some { clientConfig := cfg }, sessionErr cfg)

/-- A CloudWatch address whose region starts with a character of the cutset
`monitoring.`. -/
def mxCentralAddress : String := "monitoring.mx-central-1.amazonaws.com"

/-- The region the spec's prefix/suffix stripping derives for
`mxCentralAddress`. -/
def mxCentralRegion : String := "mx-central-1"

/-- What the code actually derives for `mxCentralAddress`. -/
def mxCentralTrimmed : String := "x-central-1"

/-- C2: the claim (and spec) say the region is obtained by stripping the fixed
prefix `monitoring.` and fixed suffix `.amazonaws.com`; the code uses
`strings.TrimLeft`/`strings.TrimRight`, which strip character-set runs.  For
`monitoring.mx-central-1.amazonaws.com` the code derives `x-central-1` — the
leading `m` of the region `mx-central-1` is also removed, since `m` belongs to
the cutset `monitoring.`. -/
theorem cloudwatch_region_is_cutset_trim_not_literal_strip :
    cloudWatchRegion mxCentralAddress = mxCentralTrimmed ∧
    mxCentralTrimmed ≠ mxCentralRegion := by
  exact ⟨rfl, by decide⟩

/-- A session-constructor oracle that always fails. -/
def sessionFailureMsg : String := "session creation failed"

/-- The session-constructor outcome in which `session.NewSession` fails for
every config. -/
def sessionAlwaysFails : AWSConfig → Option String := fun _ => some sessionFailureMsg

/-- A well-formed CloudWatch address. -/
def usEastAddress : String := "monitoring.us-east-1.amazonaws.com"

/-- C4 counterexample: when the SDK session constructor fails,
`newCloudWatchProvider` returns a non-nil provider value *and* the error, so
construction does not fail closed. -/
theorem cloudwatch_ctor_returns_client_alongside_error :
    (newCloudWatchProvider sessionAlwaysFails usEastAddress).1.isSome = true ∧
    (newCloudWatchProvider sessionAlwaysFails usEastAddress).2 = some sessionFailureMsg :=
  ⟨rfl, rfl⟩

/-- C4 (amended): Datadog construction fails closed — whenever it returns a
non-nil error, the returned client is nil — but CloudWatch construction always
returns a non-nil provider value (wrapping a client built from the session),
merely propagating the session error alongside it. -/
theorem construction_fail_closed_amended :
    (∀ parsed addr creds e, (newDatadogProvider parsed addr creds).2 = some e →
      (newDatadogProvider parsed addr creds).1 = none) ∧
    (∀ sessionErr addr, (newCloudWatchProvider sessionErr addr).1
      = some { clientConfig := { region := cloudWatchRegion addr,
                                 maxRetries := cloudWatchMaxRetries,
                                 endpoint := addr } }) := by
  constructor
  · intro parsed addr creds e h
    cases hk : creds datadogAPIKeySecretKey with
    | none => simp [newDatadogProvider, hk]
    | some k =>
        cases ha : creds datadogApplicationKeySecretKey with
        | none => simp [newDatadogProvider, hk, ha]
        | some a =>
            cases parsed with
            | error e2 => simp [newDatadogProvider, hk, ha]
            | ok ns => simp [newDatadogProvider, hk, ha] at h
  · intro sessionErr addr
    rfl

/-- Witness for `construction_fail_closed_amended`: the Datadog constructor at
an empty credentials map (which fails) returns a nil client, and the CloudWatch
constructor at a failing session still returns a provider value. -/
theorem construction_fail_closed_amended_witness :
    (newDatadogProvider (Except.ok 60000000000) datadogDefaultHost credsEmpty).1 = none ∧
    (newCloudWatchProvider sessionAlwaysFails usEastAddress).1
      = some { clientConfig := { region := cloudWatchRegion usEastAddress,
                                 maxRetries := cloudWatchMaxRetries,
                                 endpoint := usEastAddress } } :=
  ⟨construction_fail_closed_amended.1 (Except.ok 60000000000) datadogDefaultHost
      credsEmpty errMissingAPIKey rfl,
   construction_fail_closed_amended.2 sessionAlwaysFails usEastAddress⟩

/-- A CloudWatch metric-data query as decoded from the query JSON; `RunQuery`
passes it through to the SDK unchanged, so it is modelled as an uninterpreted
token. -/
def CWMetricDataQuery : Type := String

/-- One `cloudwatch.MetricDataResult`: its `Values` field is `[]*float64`,
modelled as a list of maybe-nil values. -/
structure CWMetricDataResult where
  values : List (Option ℚ)
deriving DecidableEq

/-- A `cloudwatch.GetMetricDataOutput` (`MetricDataResults`; entries are
non-nil pointers, as the SDK produces). -/
structure CWGetMetricDataOutput where
  metricDataResults : List CWMetricDataResult
deriving DecidableEq

/-- `aws.Float64Value`: dereference a `*float64`, or `0` for nil. -/
def float64Value (p : Option ℚ) : ℚ := p.getD 0

/-- The fields of `cloudwatch.GetMetricDataInput` that the package sets: the
two time pointers (nil or set), `MaxDatapoints` and the queries. -/
structure GetMetricDataInput where
  startTimeSet : Bool
  endTimeSet : Bool
  maxDatapoints : Option Int
  metricDataQueries : List CWMetricDataQuery

/-- An error returned by the AWS client: a `awserr.RequestFailure` carrying an
HTTP status code, or any other error value.  `msg` is the text of `Error()`. -/
inductive AWSError where
  | requestFailure (statusCode : Nat) (msg : String)
  | other (msg : String)
deriving DecidableEq

/-- The `err.Error()` text of an AWS client error. -/
def awsErrorText : AWSError → String
  | AWSError.requestFailure _ msg => msg
  | AWSError.other msg => msg

/-- Error text prefix of the decode branch of `cloudWatchProvider.RunQuery`. -/
def errorUnmarshalingQueryLead : String := "error unmarshaling query: "

/-- Error text prefix of the failed-request branch of
`cloudWatchProvider.RunQuery`. -/
def errorRequestingCloudwatchLead : String := "error requesting cloudwatch: "

/-- Structured result errors of `cloudWatchProvider.RunQuery`; `noValues`
carries the response whose `res.String()` rendering the Go error message
embeds. -/
inductive CWQueryError where
  | unmarshalErr (msg : String)
  | requestErr (msg : String)
  | noValues (res : CWGetMetricDataOutput)
deriving DecidableEq

/-- The `GetMetricDataInput` that `cloudWatchProvider.RunQuery` builds: nil
start and end times, `MaxDatapoints = 1`, and the decoded queries. -/
def cloudWatchQueryInput (cq : List CWMetricDataQuery) : GetMetricDataInput :=
  { startTimeSet := false
    endTimeSet := false
    maxDatapoints := some 1
    metricDataQueries := cq }

/-- Embedding of `cloudWatchProvider.RunQuery` (cloudwatch.go).  `client` is
the injected `cloudWatchClient.GetMetricData` (an oracle over its input);
`unmarshal` is the outcome of `json.Unmarshal([]byte(query), &cq)`.  The
boolean records whether the backend was called. -/
def cloudWatchRunQuery
    (client : GetMetricDataInput → Except AWSError CWGetMetricDataOutput)
    (unmarshal : Except String (List CWMetricDataQuery)) :
    Bool × Except CWQueryError ℚ :=
  match unmarshal with
  | Except.error e =>
      (false, Except.error (CWQueryError.unmarshalErr (errorUnmarshalingQueryLead ++ e)))
  | Except.ok cq =>
      match client (cloudWatchQueryInput cq) with
      | Except.error err =>
          (true, Except.error (CWQueryError.requestErr
            (errorRequestingCloudwatchLead ++ awsErrorText err)))
      | Except.ok res =>
          match res.metricDataResults.head? with
          | none => (true, Except.error (CWQueryError.noValues res))
          | some first =>
              match first.values.head? with
              | none => (true, Except.error (CWQueryError.noValues res))
              | some v0 => (true, Except.ok (float64Value v0))

/-- C8: an unmarshalable query makes `RunQuery` return the decode error with no
backend call (the call flag is `false`, for every client); a decodable query
calls the backend with the decoded queries, errs when the result list or the
first result's value list is empty, and otherwise returns the first value of
the first result's value list. -/
theorem cloudwatch_runquery_decode_and_first_value
    (client : GetMetricDataInput → Except AWSError CWGetMetricDataOutput)
    (cq : List CWMetricDataQuery) (res : CWGetMetricDataOutput) :
    (∀ e, cloudWatchRunQuery client (Except.error e)
      = (false, Except.error
          (CWQueryError.unmarshalErr (errorUnmarshalingQueryLead ++ e)))) ∧
    (client (cloudWatchQueryInput cq) = Except.ok res →
      (res.metricDataResults = [] →
        cloudWatchRunQuery client (Except.ok cq)
          = (true, Except.error (CWQueryError.noValues res))) ∧
      (∀ first rest, res.metricDataResults = first :: rest →
        (first.values = [] →
          cloudWatchRunQuery client (Except.ok cq)
            = (true, Except.error (CWQueryError.noValues res))) ∧
        (∀ v0 vrest, first.values = v0 :: vrest →
          cloudWatchRunQuery client (Except.ok cq)
            = (true, Except.ok (float64Value v0))))) := by
  refine ⟨fun e => rfl, fun hclient => ⟨fun hmr => ?_, fun first rest hmr => ⟨fun hv => ?_, fun v0 vrest hv => ?_⟩⟩⟩
  · simp [cloudWatchRunQuery, hclient, hmr]
  · simp [cloudWatchRunQuery, hclient, hmr, hv]
  · simp [cloudWatchRunQuery, hclient, hmr, hv]

/-- The decode-error text `json.Unmarshal` returns for a non-JSON query. -/
def sampleDecodeError : String := "unexpected end of JSON input"

/-- A decoded one-element metric-data-query list. -/
def cwSampleQuery : List CWMetricDataQuery := [datadogMetricsQueryPath]

/-- A backend response with one result holding one (non-nil) value `7`. -/
def cwOutputOneValue : CWGetMetricDataOutput := ⟨[⟨[some 7]⟩]⟩

/-- A client whose `GetMetricData` always returns `cwOutputOneValue`. -/
def cwClientOneValue : GetMetricDataInput → Except AWSError CWGetMetricDataOutput :=
  fun _ => Except.ok cwOutputOneValue

/-- Witness for `cloudwatch_runquery_decode_and_first_value`: a failed decode
returns the decode error without calling the backend, and a one-value response
yields its first value. -/
theorem cloudwatch_runquery_decode_and_first_value_witness :
    cloudWatchRunQuery cwClientOneValue (Except.error sampleDecodeError)
      = (false, Except.error (CWQueryError.unmarshalErr
          (errorUnmarshalingQueryLead ++ sampleDecodeError))) ∧
    cloudWatchRunQuery cwClientOneValue (Except.ok cwSampleQuery)
      = (true, Except.ok 7) :=
  ⟨(cloudwatch_runquery_decode_and_first_value cwClientOneValue cwSampleQuery
      cwOutputOneValue).1 sampleDecodeError,
   (((cloudwatch_runquery_decode_and_first_value cwClientOneValue cwSampleQuery
      cwOutputOneValue).2 rfl).2 ⟨[some 7]⟩ [] rfl).2 (some 7) [] rfl⟩

/-- The fixed probe input `cloudWatchProvider.IsOnline` sends: zero start and
end times (set, not nil) and an empty query list. -/
def cloudWatchProbeInput : GetMetricDataInput :=
  { startTimeSet := true
    endTimeSet := true
    maxDatapoints := none
    metricDataQueries := [] }

/-- Structured errors of `cloudWatchProvider.IsOnline`: an unexpected
(non-request-failure) error, or a request failure with an unexpected status. -/
inductive CWOnlineError where
  | unexpectedError (msg : String)
  | unexpectedStatus (statusCode : Nat) (msg : String)
deriving DecidableEq

/-- Embedding of `cloudWatchProvider.IsOnline` (cloudwatch.go).  `client` is
the injected `GetMetricData`; the function probes it on
`cloudWatchProbeInput`.  `http.StatusBadRequest` is `400`. -/
def cloudWatchIsOnline
    (client : GetMetricDataInput → Except AWSError CWGetMetricDataOutput) :
    Bool × Option CWOnlineError :=
  match client cloudWatchProbeInput with
  | Except.ok _ => (true, none)
  | Except.error e =>
      match e with
      | AWSError.other msg => (false, some (CWOnlineError.unexpectedError msg))
      | AWSError.requestFailure status msg =>
          if status ≠ 400 then (false, some (CWOnlineError.unexpectedStatus status msg))
          else (true, none)

/-- C9: `IsOnline` returns `(true, nil)` when the probe succeeds; `(false, err)`
with an unexpected-error report when the probe fails with a
non-request-failure error; `(true, nil)` when it fails with a request failure
whose status is exactly `400` (bad request); and `(false, err)` with an
unexpected-status report for every other request-failure status. -/
theorem cloudwatch_isonline_classification
    (client : GetMetricDataInput → Except AWSError CWGetMetricDataOutput) :
    (∀ res, client cloudWatchProbeInput = Except.ok res →
      cloudWatchIsOnline client = (true, none)) ∧
    (∀ msg, client cloudWatchProbeInput = Except.error (AWSError.other msg) →
      cloudWatchIsOnline client = (false, some (CWOnlineError.unexpectedError msg))) ∧
    (∀ msg, client cloudWatchProbeInput
        = Except.error (AWSError.requestFailure 400 msg) →
      cloudWatchIsOnline client = (true, none)) ∧
    (∀ status msg, status ≠ 400 →
      client cloudWatchProbeInput = Except.error (AWSError.requestFailure status msg) →
      cloudWatchIsOnline client
        = (false, some (CWOnlineError.unexpectedStatus status msg))) := by
  refine ⟨fun res h => ?_, fun msg h => ?_, fun msg h => ?_, fun status msg hs h => ?_⟩
  · simp [cloudWatchIsOnline, h]
  · simp [cloudWatchIsOnline, h]
  · simp [cloudWatchIsOnline, h]
  · simp [cloudWatchIsOnline, h, hs]

/-- The `Error()` text of a sample AWS client error. -/
def sampleAWSErrorMsg : String := "RequestError: send request failed"

/-- A client whose probe fails with a non-request-failure error. -/
def cwClientOtherError : GetMetricDataInput → Except AWSError CWGetMetricDataOutput :=
  fun _ => Except.error (AWSError.other sampleAWSErrorMsg)

/-- A client whose probe fails with a request failure of status 400. -/
def cwClientBadRequest : GetMetricDataInput → Except AWSError CWGetMetricDataOutput :=
  fun _ => Except.error (AWSError.requestFailure 400 sampleAWSErrorMsg)

/-- A client whose probe fails with a request failure of status 403. -/
def cwClientForbidden : GetMetricDataInput → Except AWSError CWGetMetricDataOutput :=
  fun _ => Except.error (AWSError.requestFailure 403 sampleAWSErrorMsg)

/-- Witness for `cloudwatch_isonline_classification` on four concrete clients:
probe success, a generic error, a 400 request failure and a 403 request
failure. -/
theorem cloudwatch_isonline_classification_witness :
    cloudWatchIsOnline cwClientOneValue = (true, none) ∧
    cloudWatchIsOnline cwClientOtherError
      = (false, some (CWOnlineError.unexpectedError sampleAWSErrorMsg)) ∧
    cloudWatchIsOnline cwClientBadRequest = (true, none) ∧
    cloudWatchIsOnline cwClientForbidden
      = (false, some (CWOnlineError.unexpectedStatus 403 sampleAWSErrorMsg)) :=
  ⟨(cloudwatch_isonline_classification cwClientOneValue).1 cwOutputOneValue rfl,
   (cloudwatch_isonline_classification cwClientOtherError).2.1 sampleAWSErrorMsg rfl,
   (cloudwatch_isonline_classification cwClientBadRequest).2.2.1 sampleAWSErrorMsg rfl,
   (cloudwatch_isonline_classification cwClientForbidden).2.2.2 403 sampleAWSErrorMsg
     (by decide) rfl⟩

/-- The `provider.Type` string selecting the prometheus client. -/
def prometheusTypeName : String := "prometheus"

/-- The `provider.Type` string selecting the datadog client. -/
def datadogTypeName : String := "datadog"

/-- The `provider.Type` string selecting the cloudwatch client. -/
def cloudwatchTypeName : String := "cloudwatch"

/-- The empty `provider.Type` string. -/
def emptyTypeName : String := ""

/-- The prometheus provider client.  Its constructor is not part of this
package snapshot, so the client value is an uninterpreted token. -/
abbrev PrometheusClientModel := String

/-- A value of the provider `Interface` returned by the factory: one of the
three client kinds. -/
inductive ProviderClient where
  | prometheus (p : PrometheusClientModel)
  | datadog (d : DatadogProviderModel)
  | cloudwatch (c : CloudWatchProviderModel)
deriving DecidableEq

/-- Wrap a constructor's `(client, error)` pair into the interface type,
leaving both components otherwise unchanged (the Go return statement
`return newXProvider(...)` up-casts the client pointer to `Interface`). -/
def wrapResult {α : Type} (wrap : α → ProviderClient)
    (r : Option α × Option String) : Option ProviderClient × Option String :=
  (r.1.map wrap, r.2)

/-- Embedding of the second `Factory.Provider` implementation (the version
whose `switch provider.Type` has a `cloudwatch` case).  `newPrometheusProvider`
is the prometheus constructor — absent from this snapshot — supplied as an
oracle over the provider address and credentials; `sessionErr` is the AWS
session oracle threaded to `newCloudWatchProvider`.  A Go `switch` on a string
is an equality chain taken in order, defaulting to the prometheus constructor. -/
def FactoryV2.Provider
    (newPrometheusProvider :
      String → (String → Option String) → Option PrometheusClientModel × Option String)
    (sessionErr : AWSConfig → Option String)
    (metricInterval : Except String Int) (providerType providerAddress : String)
    (credentials : String → Option String) : Option ProviderClient × Option String :=
  if providerType = prometheusTypeName then
    wrapResult ProviderClient.prometheus (newPrometheusProvider providerAddress credentials)
  else if providerType = datadogTypeName then
    wrapResult ProviderClient.datadog
      (newDatadogProvider metricInterval providerAddress credentials)
  else if providerType = cloudwatchTypeName then
    wrapResult ProviderClient.cloudwatch (newCloudWatchProvider sessionErr providerAddress)
  else
    wrapResult ProviderClient.prometheus (newPrometheusProvider providerAddress credentials)

/-- Embedding of the first `Factory.Provider` implementation (the version with
no `cloudwatch` case; its `switch { case ... }` tests `provider.Type == ...` in
order and defaults to the prometheus constructor).  Its capitalized
`NewPrometheusProvider`/`NewDatadogProvider` are identified with the
constructors of the snapshot (the prometheus one as the same oracle). -/
def FactoryV1.Provider
    (newPrometheusProvider :
      String → (String → Option String) → Option PrometheusClientModel × Option String)
    (metricInterval : Except String Int) (providerType providerAddress : String)
    (credentials : String → Option String) : Option ProviderClient × Option String :=
  if providerType = prometheusTypeName then
    wrapResult ProviderClient.prometheus (newPrometheusProvider providerAddress credentials)
  else if providerType = datadogTypeName then
    wrapResult ProviderClient.datadog
      (newDatadogProvider metricInterval providerAddress credentials)
  else
    wrapResult ProviderClient.prometheus (newPrometheusProvider providerAddress credentials)

/-- C5: the factory with the `cloudwatch` case dispatches on the type string —
`prometheus`, `datadog` and `cloudwatch` select the corresponding constructor,
and every other string (the empty string included) falls back to the
prometheus constructor — and each branch returns the chosen constructor's
client-and-error pair unchanged. -/
theorem factory_v2_dispatch
    (prom : String → (String → Option String) → Option PrometheusClientModel × Option String)
    (sessionErr : AWSConfig → Option String) (mi : Except String Int)
    (t addr : String) (creds : String → Option String) :
    (FactoryV2.Provider prom sessionErr mi prometheusTypeName addr creds
      = wrapResult ProviderClient.prometheus (prom addr creds)) ∧
    (FactoryV2.Provider prom sessionErr mi datadogTypeName addr creds
      = wrapResult ProviderClient.datadog (newDatadogProvider mi addr creds)) ∧
    (FactoryV2.Provider prom sessionErr mi cloudwatchTypeName addr creds
      = wrapResult ProviderClient.cloudwatch (newCloudWatchProvider sessionErr addr)) ∧
    (t ≠ prometheusTypeName → t ≠ datadogTypeName → t ≠ cloudwatchTypeName →
      FactoryV2.Provider prom sessionErr mi t addr creds
        = wrapResult ProviderClient.prometheus (prom addr creds)) := by
  refine ⟨?_, ?_, ?_, fun h1 h2 h3 => ?_⟩
  · simp [FactoryV2.Provider]
  · simp [FactoryV2.Provider, datadogTypeName, prometheusTypeName]
  · simp [FactoryV2.Provider, cloudwatchTypeName, prometheusTypeName, datadogTypeName]
  · simp [FactoryV2.Provider, h1, h2, h3]

/-- A sample prometheus client token. -/
def promSampleClient : PrometheusClientModel := "prometheus-client"

/-- A prometheus constructor oracle that always succeeds with
`promSampleClient`. -/
def promOracle :
    String → (String → Option String) → Option PrometheusClientModel × Option String :=
  fun _ _ => (some promSampleClient, none)

/-- Witness for `factory_v2_dispatch` at concrete oracles, with the empty type
string for the default branch. -/
theorem factory_v2_dispatch_witness :
    (FactoryV2.Provider promOracle sessionAlwaysFails (Except.ok 60000000000)
        prometheusTypeName usEastAddress credsBothKeys
      = wrapResult ProviderClient.prometheus (promOracle usEastAddress credsBothKeys)) ∧
    (FactoryV2.Provider promOracle sessionAlwaysFails (Except.ok 60000000000)
        datadogTypeName usEastAddress credsBothKeys
      = wrapResult ProviderClient.datadog
          (newDatadogProvider (Except.ok 60000000000) usEastAddress credsBothKeys)) ∧
    (FactoryV2.Provider promOracle sessionAlwaysFails (Except.ok 60000000000)
        cloudwatchTypeName usEastAddress credsBothKeys
      = wrapResult ProviderClient.cloudwatch
          (newCloudWatchProvider sessionAlwaysFails usEastAddress)) ∧
    (FactoryV2.Provider promOracle sessionAlwaysFails (Except.ok 60000000000)
        emptyTypeName usEastAddress credsBothKeys
      = wrapResult ProviderClient.prometheus (promOracle usEastAddress credsBothKeys)) := by
  obtain ⟨h1, h2, h3, h4⟩ := factory_v2_dispatch promOracle sessionAlwaysFails
    (Except.ok 60000000000) emptyTypeName usEastAddress credsBothKeys
  exact ⟨h1, h2, h3, h4 (by decide) (by decide) (by decide)⟩

/-- C10 counterexample: on provider type `cloudwatch` the first factory
implementation dispatches to the prometheus constructor while the second
dispatches to the CloudWatch constructor, so the two differ both in the client
kind and in the returned error. -/
theorem factory_versions_disagree_on_cloudwatch :
    FactoryV1.Provider promOracle (Except.ok 60000000000)
        cloudwatchTypeName usEastAddress credsBothKeys
      ≠ FactoryV2.Provider promOracle sessionAlwaysFails (Except.ok 60000000000)
        cloudwatchTypeName usEastAddress credsBothKeys := by
  decide

/-- C10 (amended): for every provider type other than `cloudwatch`, and any
interval, address, credentials and oracles, the two `Factory.Provider`
implementations return identical results. -/
theorem factory_versions_agree_off_cloudwatch
    (prom : String → (String → Option String) → Option PrometheusClientModel × Option String)
    (sessionErr : AWSConfig → Option String) (mi : Except String Int)
    (t addr : String) (creds : String → Option String)
    (h : t ≠ cloudwatchTypeName) :
    FactoryV1.Provider prom mi t addr creds
      = FactoryV2.Provider prom sessionErr mi t addr creds := by
  by_cases h1 : t = prometheusTypeName
  · simp [FactoryV1.Provider, FactoryV2.Provider, h1]
  · by_cases h2 : t = datadogTypeName
    · simp [FactoryV1.Provider, FactoryV2.Provider, h1, h2]
    · simp [FactoryV1.Provider, FactoryV2.Provider, h1, h2, h]

/-- Witness for `factory_versions_agree_off_cloudwatch` at provider type
`datadog` with concrete oracles. -/
theorem factory_versions_agree_off_cloudwatch_witness :
    FactoryV1.Provider promOracle (Except.ok 60000000000)
        datadogTypeName usEastAddress credsBothKeys
      = FactoryV2.Provider promOracle sessionAlwaysFails (Except.ok 60000000000)
        datadogTypeName usEastAddress credsBothKeys :=
  factory_versions_agree_off_cloudwatch promOracle sessionAlwaysFails
    (Except.ok 60000000000) datadogTypeName usEastAddress credsBothKeys (by decide)
